import Mathlib

/-!
Verification development for the databricks-job-monitor repository.

The Python sources are shallowly embedded as Lean functions:

* `config/settings.py` → `AlertThresholds`, `MonitoringConfig`;
* `src/monitors/base_monitor.py` → `validateTimeRange`;
* `src/monitors/system_tables_client.py` → `querySystemTable`;
* `src/monitors/cluster_monitor.py` → `clusterGetMetrics`,
  `clusterDetectAnomalies`;
* `src/monitors/job_monitor.py` → `jobGetComprehensiveMetrics`,
  `jobDetectAnomalies`;
* `src/dashboard/metrics_collector.py` → `getAllMetrics`, `isCacheValid`,
  `assessOverallHealth`.

Python dictionaries are modelled as association lists (`alookup`, `aInsert`
reproduce `d[k]` lookup and `d[k] = v` assignment with insertion order),
wall-clock time is passed explicitly as a rational `now`, pandas float
columns are modelled as exact rationals, and fallible I/O (SQL execution,
monitor futures) is modelled with `Except` parameters.  Where a property
requires counting remote calls, the embedding additionally returns the list
of executed queries or the number of fan-outs performed, mirroring the
call-counting stubs the spec proposes for testing.
-/

namespace JobMon

/-! ### Association lists standing for Python dicts -/

/-- Lookup `d[k]` in a Python dict modelled as an association list. -/
def alookup {β : Type _} : List (String × β) → String → Option β
  | [], _ => none
  | (k, v) :: rest, key => if k = key then some v else alookup rest key

/-- Assignment `d[k] = v` on a Python dict: overwrite in place if the key is
present, otherwise append (Python dicts preserve insertion order). -/
def aInsert {β : Type _} : List (String × β) → String → β → List (String × β)
  | [], k, v => [(k, v)]
  | (k', v') :: rest, k, v =>
    if k' = k then (k, v) :: rest else (k', v') :: aInsert rest k v

/-! ### `base_monitor.py`: `BaseMonitor._validate_time_range` -/

/-- `BaseMonitor._validate_time_range`: `days < 1` is replaced by `1`,
`days > 90` by `90`, anything else passes through unchanged. -/
def validateTimeRange (days : Int) : Int :=
  if days < 1 then 1 else if days > 90 then 90 else days

/-! ### `system_tables_client.py`: `SystemTablesClient.query_system_table`

The SQL connection is modelled as an optional function from a query string to
the outcome of executing it on the warehouse (`Except`: rows back, or an
exception raised by the client library).  `self.sql_connection` is `None`
exactly when no `warehouse_id` was configured.  The second component of the
result lists the queries actually sent over the wire, so that "no remote
execution was attempted" is observable. -/

/-- `SystemTablesClient.query_system_table`: with no SQL connection it logs
and returns an empty DataFrame without executing anything; with a connection
it executes the query, and any raised exception is caught and converted to an
empty DataFrame. -/
def querySystemTable {α : Type _} (conn : Option (String → Except String (List α)))
    (query : String) : List α × List String :=
  match conn with
  | none => ([], [])
  | some run =>
    match run query with
    | .ok rows => (rows, [query])
    | .error _ => ([], [query])

/-! ### The fetch phase shared by `ClusterMonitor.get_metrics` and
`JobMonitor.get_comprehensive_job_metrics`

Both methods build `metrics = {}`, then inside a single `try:` block assign
one table after another, returning `metrics`; the single `except:` clause
returns a fresh `{}`.  An exception raised by any fetch therefore aborts the
remaining fetches and discards every table already assigned. -/

/-- Run the assignments of the `try:` block in order: each fetch either
returns a table or raises; the first raise aborts the rest. -/
def fetchSequence {T : Type _} : List (String × Except String T) →
    Except String (List (String × T))
  | [] => .ok []
  | (name, r) :: rest =>
    match r with
    | .error e => .error e
    | .ok t =>
      match fetchSequence rest with
      | .error e => .error e
      | .ok l => .ok ((name, t) :: l)

/-- The whole `try/except` of a monitor's fetch method: the populated dict if
every fetch succeeded, the empty dict `{}` if any fetch raised. -/
def fetchAllOrEmpty {T : Type _} (fetchers : List (String × Except String T)) :
    List (String × T) :=
  match fetchSequence fetchers with
  | .ok l => l
  | .error _ => []

/-- The four fetch helpers called by `ClusterMonitor.get_metrics`, as stubs
mapping the day window to an outcome (`_get_node_types` takes no window). -/
structure ClusterFetchers (T : Type _) where
  cluster_utilization : Int → Except String T
  node_types : Except String T
  efficiency_metrics : Int → Except String T
  cost_analysis : Int → Except String T

/-- `ClusterMonitor.get_metrics`: validates the day window, then fetches the
four tables inside one `try/except` that returns `{}` on any exception. -/
def clusterGetMetrics {T : Type _} (f : ClusterFetchers T) (days : Int) :
    List (String × T) :=
  let d := validateTimeRange days
  fetchAllOrEmpty
    [("cluster_utilization", f.cluster_utilization d),
     ("node_types", f.node_types),
     ("efficiency_metrics", f.efficiency_metrics d),
     ("cost_analysis", f.cost_analysis d)]

/-- The three client calls made by `JobMonitor.get_comprehensive_job_metrics`,
as stubs mapping the day window to an outcome. -/
structure JobFetchers (T : Type _) where
  runtime_metrics : Int → Except String T
  failure_analysis : Int → Except String T
  cluster_utilization : Int → Except String T

/-- `JobMonitor.get_comprehensive_job_metrics`: fetches the three tables
inside one `try/except` that returns `{}` on any exception (no day-window
validation happens in this method). -/
def jobGetComprehensiveMetrics {T : Type _} (f : JobFetchers T) (days : Int) :
    List (String × T) :=
  fetchAllOrEmpty
    [("runtime_metrics", f.runtime_metrics days),
     ("failure_analysis", f.failure_analysis days),
     ("cluster_utilization", f.cluster_utilization days)]

/-! ### Python `round(x, 2)` on exact values

Pandas columns are floats; the embedding idealizes them as exact rationals
and models `round(x, 2)` as round-half-to-even at two decimal places, which
agrees with Python on the exactly representable values the claims use. -/

/-- Round-half-to-even of a rational to an integer. -/
def roundHalfEven (x : ℚ) : Int :=
  let f : Int := ⌊x⌋
  let r : ℚ := x - (f : ℚ)
  if r < 1/2 then f
  else if r > 1/2 then f + 1
  else if f % 2 = 0 then f else f + 1

/-- Python `round(x, 2)`: round-half-to-even at two decimal places. -/
def pyRound2 (x : ℚ) : ℚ :=
  ((roundHalfEven (x * 100) : Int) : ℚ) / 100

/-! ### `config/settings.py`: `MonitoringConfig` -/

/-- The `alert_thresholds` dictionary of `MonitoringConfig` (fixed keys,
defaults `80.0`, `85.0`, `60`, `0.1`). -/
structure AlertThresholds where
  cpu_utilization_threshold : ℚ
  memory_utilization_threshold : ℚ
  job_duration_threshold_minutes : ℚ
  failure_rate_threshold : ℚ
deriving DecidableEq

/-- `MonitoringConfig` from `config/settings.py`. -/
structure MonitoringConfig where
  refresh_interval_minutes : Int
  retention_days : Int
  alert_thresholds : AlertThresholds
deriving DecidableEq

/-- The default `MonitoringConfig` produced by `__post_init__`. -/
def defaultConfig : MonitoringConfig :=
  { refresh_interval_minutes := 5
    retention_days := 30
    alert_thresholds :=
      { cpu_utilization_threshold := 80
        memory_utilization_threshold := 85
        job_duration_threshold_minutes := 60
        failure_rate_threshold := 1/10 } }

/-! ### `cluster_monitor.py`: `ClusterMonitor.detect_anomalies`

Rows carry only the columns the method reads.  `cluster_name` is accessed
with `row.get('cluster_name', 'Unknown')`, hence optional. -/

/-- A row of the `cluster_utilization` table as read by `detect_anomalies`. -/
structure ClusterUtilRow where
  cluster_id : String
  cluster_name : Option String
  avg_cpu_utilization : ℚ
  avg_memory_utilization : ℚ
deriving DecidableEq

/-- A row of the `efficiency_metrics` table as read by `detect_anomalies`. -/
structure EfficiencyRow where
  cluster_id : String
  avg_cpu_utilization : ℚ
  low_cpu_percent : ℚ
  low_memory_percent : ℚ
  efficiency_category : String
deriving DecidableEq

/-- The record appended to `underutilized_clusters` / `overutilized_clusters`. -/
structure UtilAnomaly where
  cluster_id : String
  cluster_name : String
  avg_cpu_utilization : ℚ
  avg_memory_utilization : ℚ
deriving DecidableEq

/-- The record appended to `inefficient_clusters`. -/
structure IneffAnomaly where
  cluster_id : String
  avg_cpu_utilization : ℚ
  low_cpu_percent : ℚ
  low_memory_percent : ℚ
deriving DecidableEq

/-- An entry of the cluster anomalies dict (the two record shapes used). -/
inductive ClusterAnomalyEntry where
  | util (e : UtilAnomaly)
  | ineff (e : IneffAnomaly)
deriving DecidableEq

/-- The tables of a cluster metrics dict that `detect_anomalies` reads
(`node_types` and `cost_analysis` are never consulted by it); `none` models
an absent key, `some []` an empty DataFrame. -/
structure ClusterMetrics where
  cluster_utilization : Option (List ClusterUtilRow)
  efficiency_metrics : Option (List EfficiencyRow)
deriving DecidableEq

/-- The `underutilized` record built from a cluster-utilization row. -/
def mkUtilAnomaly (r : ClusterUtilRow) : ClusterAnomalyEntry :=
  .util { cluster_id := r.cluster_id
          cluster_name := r.cluster_name.getD "Unknown"
          avg_cpu_utilization := pyRound2 r.avg_cpu_utilization
          avg_memory_utilization := pyRound2 r.avg_memory_utilization }

/-- The `inefficient` record built from an efficiency-metrics row. -/
def mkIneffAnomaly (r : EfficiencyRow) : ClusterAnomalyEntry :=
  .ineff { cluster_id := r.cluster_id
           avg_cpu_utilization := pyRound2 r.avg_cpu_utilization
           low_cpu_percent := r.low_cpu_percent
           low_memory_percent := r.low_memory_percent }

/-- `ClusterMonitor.detect_anomalies`.  The monitor object holds
`self.config` (the `cfg` parameter), but the method body never reads it: its
thresholds are the literals `20`, `30`, `85`, `90`, and the filter on
`efficiency_category == 'Underutilized'`.  `expensive_clusters` is
initialized and never populated. -/
def clusterDetectAnomalies (_cfg : MonitoringConfig) (m : ClusterMetrics) :
    List (String × List ClusterAnomalyEntry) :=
  let utilPair : List ClusterAnomalyEntry × List ClusterAnomalyEntry :=
    match m.cluster_utilization with
    | none => ([], [])
    | some df =>
      if df = [] then ([], [])
      else
        ((df.filter (fun r =>
            r.avg_cpu_utilization < 20 ∧ r.avg_memory_utilization < 30)).map
          mkUtilAnomaly,
         (df.filter (fun r =>
            r.avg_cpu_utilization > 85 ∨ r.avg_memory_utilization > 90)).map
          mkUtilAnomaly)
  let ineff : List ClusterAnomalyEntry :=
    match m.efficiency_metrics with
    | none => []
    | some df =>
      if df = [] then []
      else
        (df.filter (fun r => r.efficiency_category = "Underutilized")).map
          mkIneffAnomaly
  [("underutilized_clusters", utilPair.1),
   ("overutilized_clusters", utilPair.2),
   ("expensive_clusters", []),
   ("inefficient_clusters", ineff)]

/-! ### `job_monitor.py`: `JobMonitor.detect_anomalies` -/

/-- A row of the `runtime_metrics` table as read by `detect_anomalies`. -/
structure RuntimeRow where
  job_id : Int
  job_name : Option String
  avg_duration_seconds : ℚ
  max_duration_seconds : ℚ
deriving DecidableEq

/-- A row of the `failure_analysis` table as read by `detect_anomalies`. -/
structure FailureRow where
  job_id : Int
  job_name : Option String
  failure_rate_percent : ℚ
  failed_runs : Int
  total_runs : Int
deriving DecidableEq

/-- The record appended to `long_running_jobs`. -/
structure LongRunningAnomaly where
  job_id : Int
  job_name : String
  avg_duration_minutes : ℚ
  max_duration_minutes : ℚ
deriving DecidableEq

/-- The record appended to `high_failure_rates`. -/
structure FailureAnomaly where
  job_id : Int
  job_name : String
  failure_rate_percent : ℚ
  failed_runs : Int
  total_runs : Int
deriving DecidableEq

/-- An entry of the job anomalies dict (the two record shapes used). -/
inductive JobAnomalyEntry where
  | long (e : LongRunningAnomaly)
  | fail (e : FailureAnomaly)
deriving DecidableEq

/-- The tables of a job metrics dict that `detect_anomalies` reads
(`cluster_utilization` is never consulted by it); `none` models an absent
key, `some []` an empty DataFrame. -/
structure JobMetrics where
  runtime_metrics : Option (List RuntimeRow)
  failure_analysis : Option (List FailureRow)
deriving DecidableEq

/-- The `long_running_jobs` record built from a runtime row. -/
def mkLongRunning (r : RuntimeRow) : JobAnomalyEntry :=
  .long { job_id := r.job_id
          job_name := r.job_name.getD "Unknown"
          avg_duration_minutes := pyRound2 (r.avg_duration_seconds / 60)
          max_duration_minutes := pyRound2 (r.max_duration_seconds / 60) }

/-- The `high_failure_rates` record built from a failure row. -/
def mkFailure (r : FailureRow) : JobAnomalyEntry :=
  .fail { job_id := r.job_id
          job_name := r.job_name.getD "Unknown"
          failure_rate_percent := r.failure_rate_percent
          failed_runs := r.failed_runs
          total_runs := r.total_runs }

/-- `JobMonitor.detect_anomalies`: thresholds are read from
`self.config.alert_thresholds` inside the method body, at call time.
`resource_intensive_jobs` and `irregular_schedules` are initialized and
never populated. -/
def jobDetectAnomalies (cfg : MonitoringConfig) (m : JobMetrics) :
    List (String × List JobAnomalyEntry) :=
  let long : List JobAnomalyEntry :=
    match m.runtime_metrics with
    | none => []
    | some df =>
      if df = [] then []
      else
        (df.filter (fun r =>
          r.avg_duration_seconds >
            cfg.alert_thresholds.job_duration_threshold_minutes * 60)).map
          mkLongRunning
  let failures : List JobAnomalyEntry :=
    match m.failure_analysis with
    | none => []
    | some df =>
      if df = [] then []
      else
        (df.filter (fun r =>
          r.failure_rate_percent >
            cfg.alert_thresholds.failure_rate_threshold * 100)).map
          mkFailure
  [("long_running_jobs", long),
   ("high_failure_rates", failures),
   ("resource_intensive_jobs", []),
   ("irregular_schedules", [])]

/-! ### `metrics_collector.py`: `MetricsCollector`

`get_all_metrics` fans out to the two monitors through a two-worker thread
pool; each `future.result(timeout=300)` is guarded by its own `try/except`,
so one monitor raising or timing out leaves the other's result intact.  The
outcome of each future is a parameter of type `Except` (a raised exception
or a timeout is `.error`).  Wall-clock time (`datetime.now()`) is the
explicit `now` parameter.  `_cache` and `_cache_timestamps` are two dicts
keyed identically — both are written together under `_cache_lock` and
cleared together by `clear_cache` — so they are modelled as one association
from cache key to (timestamp, entry).  The third component of the result
counts the fan-outs performed by the call (the call-counting stub of the
spec's test plan). -/

/-- The dict returned by `get_all_metrics`; `T` is the table type of the
monitor results. -/
structure AllMetrics (T : Type _) where
  job_metrics : List (String × T)
  cluster_metrics : List (String × T)
  collection_time : ℚ
  days_analyzed : Int
deriving DecidableEq

/-- The mutable state of a `MetricsCollector`: the TTL configured at
construction (`refresh_interval`, seconds) and the cache. -/
structure Collector (T : Type _) where
  refresh_interval : ℚ
  cacheEntries : List (String × (ℚ × AllMetrics T))
deriving DecidableEq

/-- The f-string `f"all_metrics_{days}"` computed by `get_all_metrics`. -/
def cacheKey (days : Int) : String :=
  "all_metrics_" ++ toString days

/-- `MetricsCollector._is_cache_valid`: the key must be present and the
entry's age `now - created_at` strictly below `refresh_interval`. -/
def isCacheValid {T : Type _} (c : Collector T) (now : ℚ) (key : String) : Bool :=
  match alookup c.cacheEntries key with
  | none => false
  | some (ts, _) => decide (now - ts < c.refresh_interval)

/-- `MetricsCollector.get_all_metrics`: on a valid cache hit (with
`use_cache`) return the cached entry with no fan-out; otherwise fan out to
both monitors, substituting `{}` for a monitor whose future raised or timed
out, and (when `use_cache`) store the result under the day-keyed cache key.
Returns (result, new collector state, number of fan-outs performed);
the cache-hit test and the miss path are split between `getAllMetrics` and
`freshCollect`. -/
def freshCollect {T : Type _} (c : Collector T) (now : ℚ) (days : Int)
    (use_cache : Bool)
    (jobOutcome clusterOutcome : Except String (List (String × T))) :
    AllMetrics T × Collector T × Nat :=
  let jm := match jobOutcome with | .ok m => m | .error _ => []
  let cm := match clusterOutcome with | .ok m => m | .error _ => []
  let metrics : AllMetrics T :=
    { job_metrics := jm, cluster_metrics := cm
      collection_time := now, days_analyzed := days }
  let c' := if use_cache then
      { c with cacheEntries := aInsert c.cacheEntries (cacheKey days) (now, metrics) }
    else c
  (metrics, c', 1)

/-- `MetricsCollector.get_all_metrics`: on a valid cache hit (with
`use_cache`) return the cached entry with no fan-out; otherwise perform the
fresh collection of `freshCollect`. -/
def getAllMetrics {T : Type _} (c : Collector T) (now : ℚ) (days : Int)
    (use_cache : Bool)
    (jobOutcome clusterOutcome : Except String (List (String × T))) :
    AllMetrics T × Collector T × Nat :=
  match alookup c.cacheEntries (cacheKey days) with
  | some (ts, cached) =>
    if use_cache && decide (now - ts < c.refresh_interval) then (cached, c, 0)
    else freshCollect c now days use_cache jobOutcome clusterOutcome
  | none => freshCollect c now days use_cache jobOutcome clusterOutcome

/-- `MetricsCollector._assess_overall_health`.  The summary dict is
represented by the two optional signals the method reads:
`job_stats['avg_success_rate']` and `cluster_stats['avg_cpu_utilization']`. -/
def assessOverallHealth (successRate cpuUtil : Option ℚ) : String :=
  let jobPair : ℚ × ℚ :=
    match successRate with
    | none => (0, 0)
    | some s => (if s > 95 then 1 else if s > 85 then 1/2 else 0, 1)
  let clusterPair : ℚ × ℚ :=
    match cpuUtil with
    | none => (0, 0)
    | some u =>
      (if 20 ≤ u ∧ u ≤ 80 then 1 else if 10 ≤ u ∧ u ≤ 90 then 1/2 else 0, 1)
  let healthScore := jobPair.1 + clusterPair.1
  let maxScore := jobPair.2 + clusterPair.2
  if maxScore = 0 then "unknown"
  else
    let healthRatio := healthScore / maxScore
    if healthRatio ≥ 4/5 then "excellent"
    else if healthRatio ≥ 3/5 then "good"
    else if healthRatio ≥ 2/5 then "fair"
    else "poor"

/-! ### Supporting lemmas

`cacheKey` builds the cache key with an f-string, so distinctness of keys for
distinct day windows reduces to injectivity of the decimal representation of
integers; that is proved here via `Nat.digits`. -/

/-- The character list of the decimal representation used by `Nat.repr`. -/
def digitsRepr (n : Nat) : List Char :=
  if n = 0 then [Nat.digitChar 0]
  else ((Nat.digits 10 n).map Nat.digitChar).reverse

lemma toDigitsCore_spec (f : Nat) : ∀ (n : Nat), 0 < n → n < f → ∀ (acc : List Char),
    Nat.toDigitsCore 10 f n acc =
      ((Nat.digits 10 n).map Nat.digitChar).reverse ++ acc := by
  induction f with
  | zero => intro n _ hf _; omega
  | succ f ih =>
    intro n hn hf acc
    rw [Nat.digits_def' (by norm_num : 1 < 10) hn]
    simp only [Nat.toDigitsCore]
    by_cases hd : n / 10 = 0
    · rw [if_pos hd, hd]
      simp
    · rw [if_neg hd]
      have hpos : 0 < n / 10 := Nat.pos_of_ne_zero hd
      have hlt : n / 10 < f := by
        have := Nat.div_lt_self hn (by norm_num : 1 < 10)
        omega
      rw [ih (n / 10) hpos hlt]
      simp

lemma natRepr_eq (n : Nat) : Nat.repr n = (digitsRepr n).asString := by
  rcases Nat.eq_zero_or_pos n with h | h
  · subst h; rfl
  · unfold Nat.repr Nat.toDigits
    rw [toDigitsCore_spec (n + 1) n h (Nat.lt_succ_self n) []]
    rw [List.append_nil]
    unfold digitsRepr
    rw [if_neg (Nat.pos_iff_ne_zero.mp h)]

lemma dash_not_mem_digitsRepr (n : Nat) : '-' ∉ digitsRepr n := by
  unfold digitsRepr
  split
  · decide
  · intro hmem
    simp only [List.mem_reverse, List.mem_map] at hmem
    obtain ⟨d, hd, hc⟩ := hmem
    have hlt : d < 10 := Nat.digits_lt_base (by norm_num) hd
    have key : ∀ x < 10, Nat.digitChar x ≠ '-' := by decide
    exact key d hlt hc

lemma mapDigitChar_inj : ∀ (l1 l2 : List Nat), (∀ d ∈ l1, d < 10) → (∀ d ∈ l2, d < 10) →
    l1.map Nat.digitChar = l2.map Nat.digitChar → l1 = l2 := by
  intro l1
  induction l1 with
  | nil =>
    intro l2 _ _ h
    cases l2 with
    | nil => rfl
    | cons b t2 => simp at h
  | cons a t ih =>
    intro l2 h1 h2 h
    cases l2 with
    | nil => simp at h
    | cons b t2 =>
      simp only [List.map_cons, List.cons.injEq] at h
      have ha : a < 10 := h1 a (by simp)
      have hb : b < 10 := h2 b (by simp)
      have key : ∀ x < 10, ∀ y < 10, Nat.digitChar x = Nat.digitChar y → x = y := by decide
      have hab := key a ha b hb h.1
      subst hab
      rw [ih t2 (fun d hd => h1 d (by simp [hd])) (fun d hd => h2 d (by simp [hd])) h.2]

lemma digitsRepr_ne_zero_case (n : Nat) (hn : n ≠ 0) :
    digitsRepr n ≠ [Nat.digitChar 0] := by
  unfold digitsRepr
  rw [if_neg hn]
  intro h
  have h2 : (Nat.digits 10 n).map Nat.digitChar = [Nat.digitChar 0] := by
    have := congrArg List.reverse h
    simpa using this
  have h3 : (Nat.digits 10 n).map Nat.digitChar = ([0] : List Nat).map Nat.digitChar := by
    simpa using h2
  have h4 : Nat.digits 10 n = [0] :=
    mapDigitChar_inj _ _ (fun d hd => Nat.digits_lt_base (by norm_num) hd)
      (by intro d hd; simp at hd; omega) h3
  have h5 := Nat.ofDigits_digits 10 n
  rw [h4] at h5
  simp [Nat.ofDigits] at h5
  exact hn h5.symm

lemma digitsRepr_injective : Function.Injective digitsRepr := by
  intro m n h
  by_cases hm : m = 0 <;> by_cases hn : n = 0
  · omega
  · exfalso
    apply digitsRepr_ne_zero_case n hn
    rw [← h, digitsRepr, if_pos hm]
  · exfalso
    apply digitsRepr_ne_zero_case m hm
    rw [h, digitsRepr, if_pos hn]
  · rw [digitsRepr, if_neg hm, digitsRepr, if_neg hn] at h
    have h2 := congrArg List.reverse h
    simp only [List.reverse_reverse] at h2
    have h3 := mapDigitChar_inj _ _
      (fun d hd => Nat.digits_lt_base (by norm_num) hd)
      (fun d hd => Nat.digits_lt_base (by norm_num) hd) h2
    have h4 := Nat.ofDigits_digits 10 m
    rw [h3, Nat.ofDigits_digits] at h4
    exact h4.symm

lemma natRepr_injective : Function.Injective Nat.repr := by
  intro m n h
  rw [natRepr_eq, natRepr_eq] at h
  have h2 : digitsRepr m = digitsRepr n := by
    have h3 := congrArg String.data h
    simpa [List.asString] using h3
  exact digitsRepr_injective h2

lemma dash_not_mem_natRepr_data (n : Nat) : '-' ∉ (Nat.repr n).data := by
  rw [natRepr_eq]
  simpa [List.asString] using dash_not_mem_digitsRepr n

lemma intRepr_injective : Function.Injective Int.repr := by
  intro a b h
  cases a with
  | ofNat m =>
    cases b with
    | ofNat n => exact congrArg Int.ofNat (natRepr_injective h)
    | negSucc n =>
      exfalso
      have hd := congrArg String.data h
      rw [Int.repr, Int.repr, String.data_append] at hd
      apply dash_not_mem_natRepr_data m
      rw [hd]
      simp [String.data]
  | negSucc m =>
    cases b with
    | ofNat n =>
      exfalso
      have hd := congrArg String.data h
      rw [Int.repr, Int.repr, String.data_append] at hd
      apply dash_not_mem_natRepr_data n
      rw [← hd]
      simp [String.data]
    | negSucc n =>
      have hd := congrArg String.data h
      rw [Int.repr, Int.repr, String.data_append, String.data_append] at hd
      have h2 := List.append_cancel_left hd
      have h3 := natRepr_injective (String.ext h2)
      have h4 : m = n := by omega
      exact congrArg Int.negSucc h4

lemma intToString_eq (i : Int) : toString i = Int.repr i := rfl

lemma cacheKey_injective : Function.Injective cacheKey := by
  intro a b h
  unfold cacheKey at h
  have hd := congrArg String.data h
  rw [String.data_append, String.data_append] at hd
  have h2 := List.append_cancel_left hd
  have h3 : toString a = toString b := String.ext h2
  rw [intToString_eq, intToString_eq] at h3
  exact intRepr_injective h3

lemma alookup_aInsert_self {β : Type _} (l : List (String × β)) (k : String) (v : β) :
    alookup (aInsert l k v) k = some v := by
  induction l with
  | nil => simp [aInsert, alookup]
  | cons p rest ih =>
    obtain ⟨k', v'⟩ := p
    by_cases h : k' = k
    · simp [aInsert, h, alookup]
    · simp [aInsert, h, alookup, ih]

lemma alookup_aInsert_ne {β : Type _} (l : List (String × β)) (k k' : String) (v : β)
    (h : k' ≠ k) : alookup (aInsert l k v) k' = alookup l k' := by
  induction l with
  | nil =>
    simp [aInsert, alookup, if_neg (Ne.symm h)]
  | cons p rest ih =>
    obtain ⟨k'', v''⟩ := p
    by_cases h2 : k'' = k
    · subst h2
      simp [aInsert, alookup, if_neg (Ne.symm h)]
    · simp [aInsert, h2, alookup, ih]

lemma getAllMetrics_of_none {T : Type _} (c : Collector T) (now : ℚ) (days : Int)
    (uc : Bool) (jr cr : Except String (List (String × T)))
    (h : alookup c.cacheEntries (cacheKey days) = none) :
    getAllMetrics c now days uc jr cr = freshCollect c now days uc jr cr := by
  unfold getAllMetrics
  rw [h]

lemma getAllMetrics_cacheEntries_other {T : Type _} (c : Collector T) (now : ℚ)
    (days : Int) (uc : Bool) (jr cr : Except String (List (String × T)))
    (k : String) (hk : k ≠ cacheKey days) :
    alookup ((getAllMetrics c now days uc jr cr).2.1).cacheEntries k =
      alookup c.cacheEntries k := by
  unfold getAllMetrics freshCollect
  cases h : alookup c.cacheEntries (cacheKey days) with
  | none =>
    cases uc with
    | true => simp [alookup_aInsert_ne _ _ _ _ hk]
    | false => simp
  | some p =>
    obtain ⟨ts, m⟩ := p
    by_cases hv : (uc && decide (now - ts < c.refresh_interval)) = true
    · simp [hv]
    · cases uc with
      | true => simp [hv, alookup_aInsert_ne _ _ _ _ hk]
      | false => simp

lemma pyRound2_int (n : Int) : pyRound2 ((n : ℚ)) = (n : ℚ) := by
  simp only [pyRound2, roundHalfEven]
  have h : ((n : ℚ)) * 100 = ((100 * n : Int) : ℚ) := by push_cast; ring
  rw [h, Int.floor_intCast, sub_self]
  rw [if_pos (by norm_num : (0 : ℚ) < 1/2)]
  push_cast
  ring

lemma validateTimeRange_idem (days : Int) :
    validateTimeRange (validateTimeRange days) = validateTimeRange days := by
  unfold validateTimeRange
  split_ifs <;> omega

/-! ### Claims -/

/-- C8: `SystemTablesClient.query_system_table` never propagates an error to
its caller: with no SQL connection it returns an empty DataFrame without
attempting any remote execution (no query in the trace), an error raised
during execution is caught and converted to an empty result set, a
successful execution returns its rows, and an erroring connection is
indistinguishable at this layer from one that returns zero rows. -/
theorem query_system_table_swallows_errors {α : Type}
    (run run' : String → Except String (List α)) (q e : String) (rows : List α) :
    querySystemTable (none : Option (String → Except String (List α))) q = ([], []) ∧
    (run q = .error e → querySystemTable (some run) q = ([], [q])) ∧
    (run q = .ok rows → querySystemTable (some run) q = (rows, [q])) ∧
    (run q = .error e → run' q = .ok [] →
      querySystemTable (some run) q = querySystemTable (some run') q) := by
  refine ⟨rfl, fun h => ?_, fun h => ?_, fun h h' => ?_⟩
  · simp [querySystemTable, h]
  · simp [querySystemTable, h]
  · simp [querySystemTable, h, h']

/-- Witness for C8 at a concrete erroring connection. -/
theorem query_system_table_swallows_errors_witness :
    (fun _ : String => (.error "boom" : Except String (List Nat))) "SELECT 1" =
      .error "boom" ∧
    querySystemTable
      (some (fun _ : String => (.error "boom" : Except String (List Nat))))
      "SELECT 1" = ([], ["SELECT 1"]) :=
  ⟨rfl,
   (query_system_table_swallows_errors (fun _ => .error "boom")
     (fun _ => .ok []) "SELECT 1" "boom" []).2.1 rfl⟩

/-- C9: `ClusterMonitor.get_metrics` clamps its day window at the public
interface: values below 1 become 1, above 90 become 90, values in [1, 90]
pass unchanged, the clamped value always lies in [1, 90], and the metrics
fetched for `days` coincide with those fetched for the clamped value, so
downstream queries only ever see a day count in [1, 90]. -/
theorem cluster_day_window_clamped {T : Type} (f : ClusterFetchers T) (days : Int) :
    (days < 1 → validateTimeRange days = 1) ∧
    (days > 90 → validateTimeRange days = 90) ∧
    (1 ≤ days → days ≤ 90 → validateTimeRange days = days) ∧
    1 ≤ validateTimeRange days ∧ validateTimeRange days ≤ 90 ∧
    clusterGetMetrics f days = clusterGetMetrics f (validateTimeRange days) := by
  refine ⟨fun h => ?_, fun h => ?_, fun h h' => ?_, ?_, ?_, ?_⟩
  · unfold validateTimeRange
    split_ifs
    all_goals omega
  · unfold validateTimeRange
    split_ifs
    all_goals omega
  · unfold validateTimeRange
    split_ifs
    all_goals omega
  · unfold validateTimeRange
    split_ifs
    all_goals omega
  · unfold validateTimeRange
    split_ifs
    all_goals omega
  · unfold clusterGetMetrics
    rw [validateTimeRange_idem]

/-- Witness for C9 at the concrete out-of-range inputs -5 and 200. -/
theorem cluster_day_window_clamped_witness :
    ((-5 : Int) < 1 ∧ validateTimeRange (-5) = 1) ∧
    ((200 : Int) > 90 ∧ validateTimeRange 200 = 90) ∧
    ((1 : Int) ≤ 7 ∧ (7 : Int) ≤ 90 ∧ validateTimeRange 7 = 7) :=
  ⟨⟨by decide,
    (cluster_day_window_clamped
      (⟨fun _ => .ok 0, .ok 0, fun _ => .ok 0, fun _ => .ok 0⟩ :
        ClusterFetchers Nat) (-5)).1 (by decide)⟩,
   ⟨by decide,
    (cluster_day_window_clamped
      (⟨fun _ => .ok 0, .ok 0, fun _ => .ok 0, fun _ => .ok 0⟩ :
        ClusterFetchers Nat) 200).2.1 (by decide)⟩,
   ⟨by decide, by decide,
    (cluster_day_window_clamped
      (⟨fun _ => .ok 0, .ok 0, fun _ => .ok 0, fun _ => .ok 0⟩ :
        ClusterFetchers Nat) 7).2.2.1 (by decide) (by decide)⟩⟩

/-- C6: `ClusterMonitor.detect_anomalies` classifies a utilization row with
cpu 15 and memory 25 as underutilized, any row with cpu 90 as overutilized
(whatever its memory value), and a row with cpu 50 and memory 50 as
neither. -/
theorem cluster_anomaly_classification :
    (alookup (clusterDetectAnomalies defaultConfig
        ⟨some [⟨"c1", some "alpha", 15, 25⟩], none⟩) "underutilized_clusters" =
      some [.util ⟨"c1", "alpha", 15, 25⟩]) ∧
    (∀ mem : ℚ, alookup (clusterDetectAnomalies defaultConfig
        ⟨some [⟨"c2", some "beta", 90, mem⟩], none⟩) "overutilized_clusters" =
      some [.util ⟨"c2", "beta", 90, pyRound2 mem⟩]) ∧
    (alookup (clusterDetectAnomalies defaultConfig
        ⟨some [⟨"c3", some "gamma", 50, 50⟩], none⟩) "underutilized_clusters" =
      some []) ∧
    (alookup (clusterDetectAnomalies defaultConfig
        ⟨some [⟨"c3", some "gamma", 50, 50⟩], none⟩) "overutilized_clusters" =
      some []) := by
  have h15 : pyRound2 (15 : ℚ) = 15 := by simpa using pyRound2_int 15
  have h25 : pyRound2 (25 : ℚ) = 25 := by simpa using pyRound2_int 25
  have h90 : pyRound2 (90 : ℚ) = 90 := by simpa using pyRound2_int 90
  refine ⟨?_, fun mem => ?_, ?_, ?_⟩
  · norm_num [clusterDetectAnomalies, alookup, mkUtilAnomaly, List.filter, h15, h25]
  · have h1 : (decide ((90 : ℚ) < 20 ∧ mem < 30)) = false := rfl
    have h2 : (decide ((90 : ℚ) > 85 ∨ mem > 90)) = true := rfl
    simp [clusterDetectAnomalies, alookup, mkUtilAnomaly, List.filter, h1, h2, h90]
  · norm_num [clusterDetectAnomalies, alookup, List.filter]
  · norm_num [clusterDetectAnomalies, alookup, List.filter]

/-- C10: for every input, `detect_anomalies` of both monitors returns a
mapping with exactly its four fixed category keys in order, absent or empty
input tables yield empty lists, and the never-populated categories are
always empty; both functions are total, so no exception is raised. -/
theorem detect_anomalies_shape (cfg : MonitoringConfig) (jm : JobMetrics)
    (cm : ClusterMetrics) :
    ((clusterDetectAnomalies cfg cm).map Prod.fst =
      ["underutilized_clusters", "overutilized_clusters", "expensive_clusters",
       "inefficient_clusters"]) ∧
    ((jobDetectAnomalies cfg jm).map Prod.fst =
      ["long_running_jobs", "high_failure_rates", "resource_intensive_jobs",
       "irregular_schedules"]) ∧
    (cm.cluster_utilization = none ∨ cm.cluster_utilization = some [] →
      alookup (clusterDetectAnomalies cfg cm) "underutilized_clusters" = some [] ∧
      alookup (clusterDetectAnomalies cfg cm) "overutilized_clusters" = some []) ∧
    (cm.efficiency_metrics = none ∨ cm.efficiency_metrics = some [] →
      alookup (clusterDetectAnomalies cfg cm) "inefficient_clusters" = some []) ∧
    alookup (clusterDetectAnomalies cfg cm) "expensive_clusters" = some [] ∧
    (jm.runtime_metrics = none ∨ jm.runtime_metrics = some [] →
      alookup (jobDetectAnomalies cfg jm) "long_running_jobs" = some []) ∧
    (jm.failure_analysis = none ∨ jm.failure_analysis = some [] →
      alookup (jobDetectAnomalies cfg jm) "high_failure_rates" = some []) ∧
    alookup (jobDetectAnomalies cfg jm) "resource_intensive_jobs" = some [] ∧
    alookup (jobDetectAnomalies cfg jm) "irregular_schedules" = some [] := by
  refine ⟨by simp [clusterDetectAnomalies], by simp [jobDetectAnomalies],
    fun h => ?_, fun h => ?_, ?_, fun h => ?_, fun h => ?_, ?_, ?_⟩
  · rcases h with h | h <;> simp [clusterDetectAnomalies, alookup, h]
  · rcases h with h | h <;> simp [clusterDetectAnomalies, alookup, h]
  · simp [clusterDetectAnomalies, alookup]
  · rcases h with h | h <;> simp [jobDetectAnomalies, alookup, h]
  · rcases h with h | h <;> simp [jobDetectAnomalies, alookup, h]
  · simp [jobDetectAnomalies, alookup]
  · simp [jobDetectAnomalies, alookup]

/-- Witness for C10 at the fully absent metrics dicts. -/
theorem detect_anomalies_shape_witness :
    ((⟨none, none⟩ : ClusterMetrics).cluster_utilization = none ∨
      (⟨none, none⟩ : ClusterMetrics).cluster_utilization = some []) ∧
    alookup (clusterDetectAnomalies defaultConfig ⟨none, none⟩)
      "underutilized_clusters" = some [] ∧
    alookup (jobDetectAnomalies defaultConfig ⟨none, none⟩)
      "long_running_jobs" = some [] :=
  ⟨Or.inl rfl,
   ((detect_anomalies_shape defaultConfig ⟨none, none⟩ ⟨none, none⟩).2.2.1
     (Or.inl rfl)).1,
   (detect_anomalies_shape defaultConfig ⟨none, none⟩ ⟨none, none⟩).2.2.2.2.2.1
     (Or.inl rfl)⟩

/-- C1 counterexample: in `ClusterMonitor.get_metrics`, when the second
fetch (`node_types`) raises, the whole call returns the empty mapping — the
`cluster_utilization` table fetched before the failure does not appear in the
result; likewise for `JobMonitor.get_comprehensive_job_metrics` when its
second fetch raises. -/
theorem monitor_fetch_not_isolated_cex :
    clusterGetMetrics
      (⟨fun _ => .ok [1], .error "exception", fun _ => .ok [2], fun _ => .ok [3]⟩ :
        ClusterFetchers (List Nat)) 7 = [] ∧
    alookup (clusterGetMetrics
      (⟨fun _ => .ok [1], .error "exception", fun _ => .ok [2], fun _ => .ok [3]⟩ :
        ClusterFetchers (List Nat)) 7) "cluster_utilization" = none ∧
    jobGetComprehensiveMetrics
      (⟨fun _ => .ok [1], fun _ => .error "exception", fun _ => .ok [2]⟩ :
        JobFetchers (List Nat)) 7 = [] :=
  ⟨rfl, rfl, rfl⟩

/-- C1 amended: both fetch methods wrap all their fetches in a single
`try/except`, so an exception while fetching any table aborts the call and
discards every table: the result is the empty mapping whenever some fetch
raises, and contains all tables exactly when every fetch succeeds. -/
theorem monitor_fetch_single_try {T : Type} (f : ClusterFetchers T)
    (g : JobFetchers T) (days : Int) (e : String) (t1 t2 t3 t4 : T) :
    ((f.cluster_utilization (validateTimeRange days) = .error e ∨
      f.node_types = .error e ∨
      f.efficiency_metrics (validateTimeRange days) = .error e ∨
      f.cost_analysis (validateTimeRange days) = .error e) →
      clusterGetMetrics f days = []) ∧
    (f.cluster_utilization (validateTimeRange days) = .ok t1 →
      f.node_types = .ok t2 →
      f.efficiency_metrics (validateTimeRange days) = .ok t3 →
      f.cost_analysis (validateTimeRange days) = .ok t4 →
      clusterGetMetrics f days =
        [("cluster_utilization", t1), ("node_types", t2),
         ("efficiency_metrics", t3), ("cost_analysis", t4)]) ∧
    ((g.runtime_metrics days = .error e ∨ g.failure_analysis days = .error e ∨
      g.cluster_utilization days = .error e) →
      jobGetComprehensiveMetrics g days = []) ∧
    (g.runtime_metrics days = .ok t1 → g.failure_analysis days = .ok t2 →
      g.cluster_utilization days = .ok t3 →
      jobGetComprehensiveMetrics g days =
        [("runtime_metrics", t1), ("failure_analysis", t2),
         ("cluster_utilization", t3)]) := by
  refine ⟨fun h => ?_, fun h1 h2 h3 h4 => ?_, fun h => ?_, fun h1 h2 h3 => ?_⟩
  · rcases h with h | h | h | h <;>
      cases hx1 : f.cluster_utilization (validateTimeRange days) <;>
      cases hx2 : f.node_types <;>
      cases hx3 : f.efficiency_metrics (validateTimeRange days) <;>
      cases hx4 : f.cost_analysis (validateTimeRange days) <;>
      simp_all [clusterGetMetrics, fetchAllOrEmpty, fetchSequence]
  · simp only [clusterGetMetrics, fetchAllOrEmpty, h1, h2, h3, h4, fetchSequence]
  · rcases h with h | h | h <;>
      cases hx1 : g.runtime_metrics days <;>
      cases hx2 : g.failure_analysis days <;>
      cases hx3 : g.cluster_utilization days <;>
      simp_all [jobGetComprehensiveMetrics, fetchAllOrEmpty, fetchSequence]
  · simp only [jobGetComprehensiveMetrics, fetchAllOrEmpty, h1, h2, h3, fetchSequence]

/-- Witness for the amended C1 at concrete fetchers: a failing second fetch
empties the result, and all-successful fetches produce all four tables. -/
theorem monitor_fetch_single_try_witness :
    ((⟨fun _ => .ok 10, .error "down", fun _ => .ok 30, fun _ => .ok 40⟩ :
        ClusterFetchers Nat).node_types = .error "down" ∧
      clusterGetMetrics
        (⟨fun _ => .ok 10, .error "down", fun _ => .ok 30, fun _ => .ok 40⟩ :
          ClusterFetchers Nat) 7 = []) ∧
    clusterGetMetrics
      (⟨fun _ => .ok 10, .ok 20, fun _ => .ok 30, fun _ => .ok 40⟩ :
        ClusterFetchers Nat) 7 =
      [("cluster_utilization", 10), ("node_types", 20),
       ("efficiency_metrics", 30), ("cost_analysis", 40)] :=
  ⟨⟨rfl,
    (monitor_fetch_single_try
      (⟨fun _ => .ok 10, .error "down", fun _ => .ok 30, fun _ => .ok 40⟩ :
        ClusterFetchers Nat)
      (⟨fun _ => .ok 0, fun _ => .ok 0, fun _ => .ok 0⟩ : JobFetchers Nat)
      7 "down" 0 0 0 0).1 (Or.inr (Or.inl rfl))⟩,
   (monitor_fetch_single_try
      (⟨fun _ => .ok 10, .ok 20, fun _ => .ok 30, fun _ => .ok 40⟩ :
        ClusterFetchers Nat)
      (⟨fun _ => .ok 0, fun _ => .ok 0, fun _ => .ok 0⟩ : JobFetchers Nat)
      7 "down" 10 20 30 40).2.1 rfl rfl rfl rfl⟩

/-- C5 counterexample: `ClusterMonitor.detect_anomalies` does not follow the
configured thresholds: with `cpu_utilization_threshold` set to 40, a row with
average cpu 83 (above that configured threshold) is still not classified as
overutilized, and the classification is identical under a configuration with
threshold 95. -/
theorem cluster_thresholds_ignore_config_cex :
    clusterDetectAnomalies
      { refresh_interval_minutes := 5, retention_days := 30,
        alert_thresholds :=
          { cpu_utilization_threshold := 40, memory_utilization_threshold := 85,
            job_duration_threshold_minutes := 60, failure_rate_threshold := 1/10 } }
      ⟨some [⟨"c9", some "delta", 83, 50⟩], none⟩ =
    clusterDetectAnomalies
      { refresh_interval_minutes := 5, retention_days := 30,
        alert_thresholds :=
          { cpu_utilization_threshold := 95, memory_utilization_threshold := 85,
            job_duration_threshold_minutes := 60, failure_rate_threshold := 1/10 } }
      ⟨some [⟨"c9", some "delta", 83, 50⟩], none⟩ ∧
    alookup (clusterDetectAnomalies
      { refresh_interval_minutes := 5, retention_days := 30,
        alert_thresholds :=
          { cpu_utilization_threshold := 40, memory_utilization_threshold := 85,
            job_duration_threshold_minutes := 60, failure_rate_threshold := 1/10 } }
      ⟨some [⟨"c9", some "delta", 83, 50⟩], none⟩) "overutilized_clusters" =
      some [] := by
  constructor
  · rfl
  · norm_num [clusterDetectAnomalies, alookup, List.filter]

/-- C5 amended: only `JobMonitor.detect_anomalies` reads its thresholds from
the shared configuration record at call time (its long-running and
high-failure filters follow the thresholds of the configuration passed to
each call); `ClusterMonitor.detect_anomalies` uses hardcoded thresholds
(cpu < 20 and memory < 30 for underutilized, cpu > 85 or memory > 90 for
overutilized) and its classification is independent of the configuration. -/
theorem anomaly_threshold_config_usage (cfg cfg' : MonitoringConfig)
    (cm : ClusterMetrics) (rdf : List RuntimeRow) (fdf : List FailureRow) :
    clusterDetectAnomalies cfg cm = clusterDetectAnomalies cfg' cm ∧
    (rdf ≠ [] →
      alookup (jobDetectAnomalies cfg ⟨some rdf, none⟩) "long_running_jobs" =
        some ((rdf.filter (fun r =>
          r.avg_duration_seconds >
            cfg.alert_thresholds.job_duration_threshold_minutes * 60)).map
          mkLongRunning)) ∧
    (fdf ≠ [] →
      alookup (jobDetectAnomalies cfg ⟨none, some fdf⟩) "high_failure_rates" =
        some ((fdf.filter (fun r =>
          r.failure_rate_percent >
            cfg.alert_thresholds.failure_rate_threshold * 100)).map
          mkFailure)) := by
  refine ⟨rfl, fun h => ?_, fun h => ?_⟩
  · simp [jobDetectAnomalies, alookup, h]
  · simp [jobDetectAnomalies, alookup, h]

/-- Witness for the amended C5: with a one-row runtime table, a 120-minute
job is flagged under the default 60-minute threshold. -/
theorem anomaly_threshold_config_usage_witness :
    ([(⟨5, some "etl", 7200, 7200⟩ : RuntimeRow)] ≠ []) ∧
    alookup (jobDetectAnomalies defaultConfig
        ⟨some [⟨5, some "etl", 7200, 7200⟩], none⟩) "long_running_jobs" =
      some ((([(⟨5, some "etl", 7200, 7200⟩ : RuntimeRow)]).filter (fun r =>
        r.avg_duration_seconds >
          defaultConfig.alert_thresholds.job_duration_threshold_minutes * 60)).map
        mkLongRunning) :=
  ⟨by simp,
   (anomaly_threshold_config_usage defaultConfig defaultConfig ⟨none, none⟩
      [⟨5, some "etl", 7200, 7200⟩] []).2.1 (by simp)⟩

/-- Modelled from the spec: the bucket table for the overall health ratio —
excellent at or above 4/5, good at or above 3/5, fair at or above 2/5,
otherwise poor — for comparison with `assessOverallHealth`. -/
def healthBucket (r : ℚ) : String :=
  if r ≥ 4/5 then "excellent"
  else if r ≥ 3/5 then "good"
  else if r ≥ 2/5 then "fair"
  else "poor"

/-- The `health_score` accumulator of `_assess_overall_health`: the points
awarded over the two signals. -/
def healthScoreOf (successRate cpuUtil : Option ℚ) : ℚ :=
  (match successRate with
   | none => 0
   | some s => if s > 95 then 1 else if s > 85 then 1/2 else 0) +
  (match cpuUtil with
   | none => 0
   | some u => if 20 ≤ u ∧ u ≤ 80 then 1 else if 10 ≤ u ∧ u ≤ 90 then 1/2 else 0)

/-- The `max_score` accumulator of `_assess_overall_health`: the number of
applicable signals. -/
def maxScoreOf (successRate cpuUtil : Option ℚ) : ℚ :=
  (match successRate with | none => 0 | some _ => 1) +
  (match cpuUtil with | none => 0 | some _ => 1)

/-- C7: the overall health assessment returns "unknown" when no signal is
present and otherwise buckets points-divided-by-signal-count at the 4/5, 3/5,
2/5 breakpoints; success rate 97 with cpu 50 scores 1 and is "excellent",
success rate 90 with cpu 95 scores 1/4 and is "poor". -/
theorem overall_health_assessment (s u : Option ℚ) :
    (maxScoreOf s u = 0 → assessOverallHealth s u = "unknown") ∧
    (maxScoreOf s u ≠ 0 →
      assessOverallHealth s u =
        healthBucket (healthScoreOf s u / maxScoreOf s u)) ∧
    healthScoreOf (some 97) (some 50) / maxScoreOf (some 97) (some 50) = 1 ∧
    assessOverallHealth (some 97) (some 50) = "excellent" ∧
    healthScoreOf (some 90) (some 95) / maxScoreOf (some 90) (some 95) = 1/4 ∧
    assessOverallHealth (some 90) (some 95) = "poor" := by
  refine ⟨fun h => ?_, fun h => ?_, ?_, ?_, ?_, ?_⟩
  · cases s <;> cases u <;>
      simp [maxScoreOf, assessOverallHealth] at h ⊢
  · cases s <;> cases u <;>
      simp [maxScoreOf, assessOverallHealth, healthScoreOf, healthBucket] at h ⊢
  · norm_num [healthScoreOf, maxScoreOf]
  · norm_num [assessOverallHealth]
  · norm_num [healthScoreOf, maxScoreOf]
  · norm_num [assessOverallHealth]

/-- Witness for C7 at the no-signal and two-signal concrete inputs. -/
theorem overall_health_assessment_witness :
    maxScoreOf none none = 0 ∧ assessOverallHealth none none = "unknown" ∧
    maxScoreOf (some 97) (some 50) ≠ 0 ∧
    assessOverallHealth (some 97) (some 50) =
      healthBucket (healthScoreOf (some 97) (some 50) /
        maxScoreOf (some 97) (some 50)) :=
  ⟨by norm_num [maxScoreOf],
   (overall_health_assessment none none).1 (by norm_num [maxScoreOf]),
   by norm_num [maxScoreOf],
   (overall_health_assessment (some 97) (some 50)).2.1
     (by norm_num [maxScoreOf])⟩

/-- C2: on a fresh fan-out of `get_all_metrics`, a monitor whose future
raises or times out leaves the sibling monitor's result unchanged in the
returned mapping, and the failed monitor's slot is present and bound to the
empty mapping. -/
theorem parallel_monitor_isolation {T : Type} (c : Collector T) (now : ℚ)
    (days : Int) (e : String) (jm cm : List (String × T))
    (hmiss : isCacheValid c now (cacheKey days) = false) :
    ((getAllMetrics c now days true (.error e) (.ok cm)).1.job_metrics = [] ∧
     (getAllMetrics c now days true (.error e) (.ok cm)).1.cluster_metrics = cm) ∧
    ((getAllMetrics c now days true (.ok jm) (.error e)).1.job_metrics = jm ∧
     (getAllMetrics c now days true (.ok jm) (.error e)).1.cluster_metrics = []) := by
  unfold isCacheValid at hmiss
  unfold getAllMetrics
  cases h : alookup c.cacheEntries (cacheKey days) with
  | none => simp [freshCollect]
  | some p =>
    obtain ⟨ts, m⟩ := p
    rw [h] at hmiss
    simp only [decide_eq_false_iff_not] at hmiss
    simp [hmiss, freshCollect]

/-- Witness for C2 at a concrete empty-cache collector with a timed-out job
future. -/
theorem parallel_monitor_isolation_witness :
    isCacheValid (⟨300, []⟩ : Collector Nat) 0 (cacheKey 7) = false ∧
    (getAllMetrics (⟨300, []⟩ : Collector Nat) 0 7 true (.error "timeout")
      (.ok [("cluster_utilization", 5)])).1.job_metrics = [] ∧
    (getAllMetrics (⟨300, []⟩ : Collector Nat) 0 7 true (.error "timeout")
      (.ok [("cluster_utilization", 5)])).1.cluster_metrics =
      [("cluster_utilization", 5)] :=
  ⟨rfl,
   ((parallel_monitor_isolation (⟨300, []⟩ : Collector Nat) 0 7 "timeout"
      [] [("cluster_utilization", 5)] rfl).1).1,
   ((parallel_monitor_isolation (⟨300, []⟩ : Collector Nat) 0 7 "timeout"
      [] [("cluster_utilization", 5)] rfl).1).2⟩

/-- C3: the collector cache is keyed by the day window: distinct day windows
have distinct cache keys, and fetching `d1` right after a call cached `d2`
(with no entry for `d1` beforehand) performs a fresh fan-out — the result is
freshly collected for `d1` at the current time, not `d2`'s entry. -/
theorem collector_cache_keyed_by_day_window {T : Type} (c : Collector T)
    (now1 now2 : ℚ) (d1 d2 : Int)
    (jr1 cr1 jr2 cr2 : Except String (List (String × T)))
    (hne : d1 ≠ d2)
    (hmiss : alookup c.cacheEntries (cacheKey d1) = none) :
    cacheKey d1 ≠ cacheKey d2 ∧
    (getAllMetrics ((getAllMetrics c now2 d2 true jr2 cr2).2.1) now1 d1 true
      jr1 cr1).2.2 = 1 ∧
    (getAllMetrics ((getAllMetrics c now2 d2 true jr2 cr2).2.1) now1 d1 true
      jr1 cr1).1.days_analyzed = d1 ∧
    (getAllMetrics ((getAllMetrics c now2 d2 true jr2 cr2).2.1) now1 d1 true
      jr1 cr1).1.collection_time = now1 := by
  have hk : cacheKey d1 ≠ cacheKey d2 := fun hh => hne (cacheKey_injective hh)
  have h2 : alookup ((getAllMetrics c now2 d2 true jr2 cr2).2.1).cacheEntries
      (cacheKey d1) = none := by
    rw [getAllMetrics_cacheEntries_other c now2 d2 true jr2 cr2 (cacheKey d1) hk]
    exact hmiss
  rw [getAllMetrics_of_none _ _ _ _ _ _ h2]
  exact ⟨hk, rfl, rfl, rfl⟩

/-- Witness for C3 with day windows 9 and 7 on an empty-cache collector. -/
theorem collector_cache_keyed_by_day_window_witness :
    ((9 : Int) ≠ 7) ∧
    alookup (⟨300, []⟩ : Collector Nat).cacheEntries (cacheKey 9) = none ∧
    (getAllMetrics ((getAllMetrics (⟨300, []⟩ : Collector Nat) 0 7 true
      (.ok []) (.ok [])).2.1) 0 9 true (.ok []) (.ok [])).2.2 = 1 ∧
    (getAllMetrics ((getAllMetrics (⟨300, []⟩ : Collector Nat) 0 7 true
      (.ok []) (.ok [])).2.1) 0 9 true (.ok []) (.ok [])).1.days_analyzed = 9 :=
  ⟨by decide, rfl,
   (collector_cache_keyed_by_day_window (⟨300, []⟩ : Collector Nat) 0 0 9 7
     (.ok []) (.ok []) (.ok []) (.ok []) (by decide) rfl).2.1,
   (collector_cache_keyed_by_day_window (⟨300, []⟩ : Collector Nat) 0 0 9 7
     (.ok []) (.ok []) (.ok []) (.ok []) (by decide) rfl).2.2.1⟩

/-- C4: a cache entry is valid exactly while `now - created_at` is below the
configured refresh interval, checked lazily when `get_all_metrics` reads the
cache: a call within the TTL returns the cached entry with zero fan-outs,
and a call after expiry performs exactly one fresh fan-out. -/
theorem cache_ttl_semantics {T : Type} (c : Collector T) (now ts : ℚ)
    (key : String) (days : Int) (m : AllMetrics T)
    (jr cr : Except String (List (String × T))) :
    (isCacheValid c now key = true ↔
      ∃ p, alookup c.cacheEntries key = some p ∧
        now - p.1 < c.refresh_interval) ∧
    (alookup c.cacheEntries (cacheKey days) = some (ts, m) →
      now - ts < c.refresh_interval →
      getAllMetrics c now days true jr cr = (m, c, 0)) ∧
    (alookup c.cacheEntries (cacheKey days) = some (ts, m) →
      ¬(now - ts < c.refresh_interval) →
      (getAllMetrics c now days true jr cr).2.2 = 1) := by
  refine ⟨?_, fun h h2 => ?_, fun h h2 => ?_⟩
  · unfold isCacheValid
    cases hl : alookup c.cacheEntries key with
    | none => simp
    | some p =>
      obtain ⟨ts', m'⟩ := p
      simp
  · unfold getAllMetrics
    rw [h]
    simp [h2]
  · unfold getAllMetrics
    rw [h]
    simp [h2, freshCollect]

/-- Witness for C4 at a concrete one-entry cache: a read at time 0 is a hit
with no fan-out, a read at time 1000 (TTL 300) performs one fan-out. -/
theorem cache_ttl_semantics_witness :
    alookup (⟨300, [("all_metrics_7", (0, ⟨[], [], 0, 7⟩))]⟩ :
      Collector Nat).cacheEntries (cacheKey 7) = some (0, ⟨[], [], 0, 7⟩) ∧
    (0 : ℚ) - 0 < 300 ∧
    getAllMetrics (⟨300, [("all_metrics_7", (0, ⟨[], [], 0, 7⟩))]⟩ :
      Collector Nat) 0 7 true (.ok []) (.ok []) =
      (⟨[], [], 0, 7⟩, ⟨300, [("all_metrics_7", (0, ⟨[], [], 0, 7⟩))]⟩, 0) ∧
    ¬((1000 : ℚ) - 0 < 300) ∧
    (getAllMetrics (⟨300, [("all_metrics_7", (0, ⟨[], [], 0, 7⟩))]⟩ :
      Collector Nat) 1000 7 true (.ok []) (.ok [])).2.2 = 1 :=
  ⟨rfl, by norm_num,
   (cache_ttl_semantics (⟨300, [("all_metrics_7", (0, ⟨[], [], 0, 7⟩))]⟩ :
      Collector Nat) 0 0 (cacheKey 7) 7 ⟨[], [], 0, 7⟩ (.ok []) (.ok [])).2.1
     rfl (by norm_num),
   by norm_num,
   (cache_ttl_semantics (⟨300, [("all_metrics_7", (0, ⟨[], [], 0, 7⟩))]⟩ :
      Collector Nat) 1000 0 (cacheKey 7) 7 ⟨[], [], 0, 7⟩ (.ok []) (.ok [])).2.2
     rfl (by norm_num)⟩

end JobMon
